import Mathlib

/-!
# LittleXpConnect: publication of flight data through a shared memory segment

A shallow embedding of `src/main.cpp` (the X-Plane plugin entry points
`XPluginStart`, `XPluginStop`, `XPluginEnable`, `XPluginDisable` and
`flightLoopCallback`) and of the test driver of `src/littlexpconnect.cpp`.

The file-level statics of `main.cpp` become the record `Plugin`, passed
explicitly.  Whatever the operating system or another process decides (whether
a segment can be created or attached, what an existing segment holds, whether
the semaphore is acquired, what the capture produced, how many bytes behind
the attached region the process can write) is an explicit argument of the
operation that consumes it.  Every call on the shared memory object and
every log line is recorded as an `Event`, so that statements such as "no lock
attempt is made" can be read off the result.
-/

namespace LittleXpConnect

/-! ## Constants -/

/-- Source: `static const int SHARED_MEMORY_SIZE = 8196;` (main.cpp). -/
def SHARED_MEMORY_SIZE : Nat := 8196

/-- Source: the key passed to `sharedMemory.setKey` in `XPluginStart`. -/
def SHARED_MEMORY_KEY : String := "LittleXpConnect"

/-- Modelled from the spec: the size of the three output buffers the host hands
to `XPluginStart` ("fixed-size output buffers"); the X-Plane SDK header that
fixes it at 256 bytes is not part of the sources. -/
def XPLM_OUT_BUFFER_SIZE : Nat := 256

/-- Source: `char name[1024], sig[1024], desc[1024];` in
`LittleXpConnectTest::start` (littlexpconnect.cpp). -/
def TEST_OUT_BUFFER_SIZE : Nat := 1024

/-! ## Observable events and faults -/

/-- Severity of a log line: `qDebug`, `qInfo`, `qWarning`. -/
inductive Severity
  | debug
  | info
  | warning
  deriving DecidableEq, Repr

/-- A raw memory copy that the process does not survive: `n > 0` bytes to the
null pointer, or `n` bytes to a region of `size` bytes when the excess reaches
memory the process cannot write. -/
inductive Fault
  | nullDestination (n : Nat)
  | overrun (n size : Nat)
  deriving DecidableEq, Repr

/-- One observable action of the plugin.  `log` carries the string literal that
distinguishes the message and the numbers streamed after it; the common prefix
(`"LittleXpConnect" << Q_FUNC_INFO`) and the streamed key and error strings are
left out.  `memcpy` records the number of bytes and whether this process held
the lock when the copy was issued; `outOfBounds` records the bytes a copy
stored behind the end of the attached region. -/
inductive Event
  | setKey (key : String)
  | create (size : Nat) (ok : Bool)
  | attach (ok : Bool)
  | detach (ok : Bool)
  | lock (ok : Bool)
  | data
  | memcpy (n : Nat) (lockHeld : Bool)
  | outOfBounds (bytes : List Nat)
  | unlock
  | log (severity : Severity) (text : String) (args : List Nat)
  | registerFlightLoop (interval : ℚ)
  | unregisterFlightLoop
  | syncSettings
  | loggingShutdown
  deriving DecidableEq, Repr

/-- Is the event a call of `sharedMemory.lock()`? -/
def Event.isLock : Event → Bool
  | .lock _ => true
  | _ => false

/-- Is the event a `memcpy`? -/
def Event.isMemcpy : Event → Bool
  | .memcpy _ _ => true
  | _ => false

/-- Is the event an out-of-bounds store? -/
def Event.isOutOfBounds : Event → Bool
  | .outOfBounds _ => true
  | _ => false

/-- Is the event a `memcpy` issued without the lock? -/
def Event.isUnlockedMemcpy : Event → Bool
  | .memcpy _ held => !held
  | _ => false

/-! ## The shared memory object

`QSharedMemory` belongs to the Qt library, not to the sources.  The
definitions below follow its documented behaviour; whatever depends on the
operating system or on other processes is an argument. -/

/-- The part of a `QSharedMemory` object the plugin depends on.
`memory` is the mapped segment: `none` is the null pointer of a detached
object, `some bytes` the contents of the attached segment.  `lockedByMe` tells
whether this process holds the segment's semaphore. -/
structure QSharedMemory where
  key : String
  memory : Option (List Nat)
  lockedByMe : Bool
  deriving DecidableEq, Repr

/-- `QSharedMemory::isAttached()`. -/
def QSharedMemory.isAttached (m : QSharedMemory) : Bool := m.memory.isSome

/-- `QSharedMemory::detach()`: returns false and does nothing when no segment is
attached, otherwise unmaps the segment and returns true (a system error while
unmapping an attached segment is not modelled). -/
def QSharedMemory.detach (m : QSharedMemory) : Bool × QSharedMemory :=
  if m.isAttached then (true, { m with memory := none }) else (false, m)

/-- `QSharedMemory::setKey(key)`: nothing happens when the key is unchanged;
otherwise the object detaches and takes the new key. -/
def QSharedMemory.setKey (m : QSharedMemory) (key : String) : QSharedMemory :=
  if key = m.key then m else { m.detach.2 with key := key }

/-- `QSharedMemory::create(size)`.  `os` is the system's answer: `none` when
the segment cannot be created (typically because one with this key exists),
`some pad` when it is created, `pad` being the bytes the platform adds when it
rounds the size up.  A new segment is zero filled and the object ends attached
to it.  A non-positive size is refused, and while this object is attached the
segment of its key exists, so creation fails. -/
def QSharedMemory.create (m : QSharedMemory) (size : Nat) (os : Option Nat) :
    Bool × QSharedMemory :=
  if size = 0 then (false, m)
  else if m.isAttached then (false, m)
  else
    match os with
    | none => (false, m)
    | some pad => (true, { m with memory := some (List.replicate (size + pad) 0) })

/-- `QSharedMemory::attach()`.  `os` is the system's answer: `none` when there
is no segment to attach to (or the system refuses), `some bytes` the contents
of the existing segment, whose size its creator chose.  An object that is
already attached returns false. -/
def QSharedMemory.attach (m : QSharedMemory) (os : Option (List Nat)) :
    Bool × QSharedMemory :=
  if m.isAttached then (false, m)
  else
    match os with
    | none => (false, m)
    | some segment => (true, { m with memory := some segment })

/-- `QSharedMemory::lock()`.  `acquired` tells whether the semaphore can be
taken.  An object that already holds the lock returns true at once. -/
def QSharedMemory.lock (m : QSharedMemory) (acquired : Bool) : Bool × QSharedMemory :=
  if m.lockedByMe then (true, m)
  else if acquired then (true, { m with lockedByMe := true })
  else (false, m)

/-- `QSharedMemory::unlock()`: releases the lock when this process holds it. -/
def QSharedMemory.unlock (m : QSharedMemory) : Bool × QSharedMemory :=
  if m.lockedByMe then (true, { m with lockedByMe := false }) else (false, m)

/-- `QSharedMemory::data()`: the mapped segment, null when detached. -/
def QSharedMemory.data (m : QSharedMemory) : Option (List Nat) := m.memory

/-! ## C library calls -/

/-- What a `memcpy` leaves behind: the destination region afterwards (`none`
when the destination is the null pointer) and the bytes it stored behind the
end of the region. -/
structure Copied where
  memory : Option (List Nat)
  beyond : List Nat
  deriving DecidableEq, Repr

/-- `memcpy(dest, src, n)` where `dest` points to the start of a mapped region
(`none` is the null pointer).  `slack` is not an argument of the C function:
it is the number of bytes behind the end of the region that the process can
write (the rest of the last page of the mapping and whatever is mapped behind
it).
* A copy that fits leaves the first `n` bytes of `src` followed by the old
  bytes of the region from offset `n` on.
* A copy longer than the region fills the region with the first bytes of
  `src` and stores the others behind it; the process survives that when the
  excess is within `slack`.
* A copy of zero bytes stores nothing, whatever the destination; a copy of
  one byte or more to the null pointer is not survived. -/
def memcpy (dest : Option (List Nat)) (src : List Nat) (n slack : Nat) :
    Except Fault Copied :=
  match dest with
  | none =>
    if n = 0 then .ok { memory := none, beyond := [] }
    else .error (.nullDestination n)
  | some region =>
    if n ≤ region.length then
      .ok { memory := some (src.take n ++ region.drop n), beyond := [] }
    else if n - region.length ≤ slack then
      .ok { memory := some ((src.take n).take region.length)
            beyond := (src.take n).drop region.length }
    else .error (.overrun n region.length)

/-- The event that reports bytes stored behind the region, if there are
any. -/
def spillEvents (beyond : List Nat) : List Event :=
  if beyond.isEmpty then [] else [.outOfBounds beyond]

/-- The bytes `strcpy(dest, src)` stores at `dest`: the characters of the
literal followed by the terminating zero. -/
def strcpy (src : String) : List Nat := src.toList.map Char.toNat ++ [0]

/-- Does a `strcpy` that stores `written` stay inside a destination of
`capacity` bytes? -/
def strcpyFits (capacity : Nat) (written : List Nat) : Bool := written.length ≤ capacity

/-! ## Plugin state -/

/-- The file-level statics of main.cpp (`app`, `pluginRunning`,
`sharedMemory`) and the host's registration of the flight loop callback. -/
structure Plugin where
  app : Bool
  pluginRunning : Bool
  sharedMemory : QSharedMemory
  flightLoopRegistered : Bool
  deriving DecidableEq, Repr

/-- The statics as initialised when the library is loaded. -/
def Plugin.init : Plugin :=
  { app := false
    pluginRunning := false
    sharedMemory := { key := "", memory := none, lockedByMe := false }
    flightLoopRegistered := false }

/-- What `XPluginStart` hands back: the return value, the bytes stored through
the three output pointers, the new statics and the events. -/
structure StartResult where
  next : Plugin
  value : Int
  outName : List Nat
  outSig : List Nat
  outDesc : List Nat
  events : List Event
  deriving DecidableEq, Repr

/-- How a call of `flightLoopCallback` ends: it returns the seconds until the
next call together with the new statics, or the process does not survive a
memory copy.  Both carry the events issued up to that point. -/
inductive Outcome
  | returned (next : Plugin) (interval : ℚ) (events : List Event)
  | faulted (fault : Fault) (events : List Event)
  deriving DecidableEq, Repr

/-- The events of an outcome. -/
def Outcome.events : Outcome → List Event
  | .returned _ _ ev => ev
  | .faulted _ ev => ev

/-- The statics after the call, when it returned. -/
def Outcome.next? : Outcome → Option Plugin
  | .returned q _ _ => some q
  | .faulted _ _ => none

/-- The returned interval, when the call returned. -/
def Outcome.interval? : Outcome → Option ℚ
  | .returned _ i _ => some i
  | .faulted _ _ => none

/-! ## Entry points of main.cpp -/

/-- Source: `XPluginStart` (main.cpp).  `createOs` and `attachOs` are the
system's answers to `create` and `attach`.  The calls that touch neither the
statics nor the shared memory (meta type registration, the attributes of the
application object, logging set-up, the settings instance) and the `qDebug`
line at entry are left out. -/
def XPluginStart (p : Plugin) (createOs : Option Nat) (attachOs : Option (List Nat)) :
    StartResult :=
  let sm0 := p.sharedMemory.setKey SHARED_MEMORY_KEY
  let c := sm0.create SHARED_MEMORY_SIZE createOs
  let a := c.2.attach attachOs
  { next := { p with app := true, sharedMemory := if c.1 then c.2 else a.2 }
    value := 1
    outName := strcpy "Little XpConnect"
    outSig := strcpy "ABarthel.LittleXpConnect.Connect"
    outDesc := strcpy "Connects Little Navmap to X-Plane."
    events :=
      [.setKey SHARED_MEMORY_KEY, .create SHARED_MEMORY_SIZE c.1] ++
      (if !c.1 then
        [.log .warning "Cannot create" [], .attach a.1] ++
        (if !a.1 then [.log .warning "Cannot attach" []]
         else [.log .info "Attached to" []])
       else [.log .info "Created" []]) }

/-- Source: `XPluginStop` (main.cpp). -/
def XPluginStop (p : Plugin) : Plugin × List Event :=
  let d := p.sharedMemory.detach
  ({ p with pluginRunning := false, sharedMemory := d.2 },
   [.detach d.1,
    (if !d.1 then .log .warning "Cannot detach" [] else .log .info "Detached from" []),
    .log .debug "sync settings" [], .syncSettings,
    .log .debug "Logging shutdown" [], .loggingShutdown,
    .log .debug "Logging shutdown done" []])

/-- Source: `XPluginEnable` (main.cpp). -/
def XPluginEnable (p : Plugin) : Plugin × Int × List Event :=
  ({ p with pluginRunning := true, flightLoopRegistered := true }, 1,
   [.registerFlightLoop 1])

/-- Source: `XPluginDisable` (main.cpp). -/
def XPluginDisable (p : Plugin) : Plugin × List Event :=
  ({ p with pluginRunning := false, flightLoopRegistered := false },
   [.unregisterFlightLoop])

/-- Source: `flightLoopCallback` (main.cpp).  `capture` is `none` when
`fillSimConnectData` returns false and `some buffer` when it returns true and
`data.write` fills the buffer with these bytes; `lockOk` tells whether the
semaphore can be taken; `slack` is the number of writable bytes behind the
attached region (see `memcpy`). -/
def flightLoopCallback (p : Plugin) (capture : Option (List Nat)) (lockOk : Bool)
    (slack : Nat) : Outcome :=
  match capture with
  | none => .returned p 1 []
  | some buffer =>
    if buffer.length > SHARED_MEMORY_SIZE then
      .returned p 1 [.log .warning "Data too large" [buffer.length, SHARED_MEMORY_SIZE]]
    else
      let l := p.sharedMemory.lock lockOk
      if l.1 then
        match memcpy l.2.data buffer buffer.length slack with
        | .error f =>
          .faulted f [.lock true, .data, .memcpy buffer.length l.2.lockedByMe]
        | .ok copied =>
          .returned
            { p with sharedMemory :=
                ({ l.2 with memory := copied.memory } : QSharedMemory).unlock.2 }
            1
            ([.lock true, .data, .memcpy buffer.length l.2.lockedByMe] ++
             spillEvents copied.beyond ++
             [.log .debug "Lock ok size" [buffer.length], .unlock])
      else
        .returned { p with sharedMemory := l.2 } 1 [.lock false, .log .info "Cannot lock" []]

/-! ## Sequences of operations -/

/-- One call made by the host (or the test driver), with the answers of the
environment it consumes. -/
inductive Op
  | start (createOs : Option Nat) (attachOs : Option (List Nat))
  | enable
  | tick (capture : Option (List Nat)) (lockOk : Bool) (slack : Nat)
  | disable
  | stop
  deriving DecidableEq, Repr

/-- One operation: the statics afterwards (`none` when the process did not
survive the call) and the events it issued. -/
def step (p : Plugin) : Op → Option Plugin × List Event
  | .start c a => (some (XPluginStart p c a).next, (XPluginStart p c a).events)
  | .enable => (some (XPluginEnable p).1, (XPluginEnable p).2.2)
  | .tick c l k => ((flightLoopCallback p c l k).next?, (flightLoopCallback p c l k).events)
  | .disable => (some (XPluginDisable p).1, (XPluginDisable p).2)
  | .stop => (some (XPluginStop p).1, (XPluginStop p).2)

/-- A sequence of operations; `none` as soon as the process does not survive
one of them. -/
def run (p : Plugin) : List Op → Option Plugin
  | [] => some p
  | op :: rest =>
    match (step p op).1 with
    | none => none
    | some q => run q rest

/-- Source: `LittleXpConnectTest::start`, which calls `XPluginStart` with three
buffers of `TEST_OUT_BUFFER_SIZE` bytes: do all three copies fit? -/
def LittleXpConnectTest.startFits (p : Plugin) (createOs : Option Nat)
    (attachOs : Option (List Nat)) : Bool :=
  strcpyFits TEST_OUT_BUFFER_SIZE (XPluginStart p createOs attachOs).outName &&
  strcpyFits TEST_OUT_BUFFER_SIZE (XPluginStart p createOs attachOs).outSig &&
  strcpyFits TEST_OUT_BUFFER_SIZE (XPluginStart p createOs attachOs).outDesc

/-! ## Concrete states used as examples -/

/-- The statics after a start in which the segment was created. -/
def createdPlugin : Plugin := (XPluginStart Plugin.init (some 0) none).next

/-- The statics after a start in which neither create nor attach worked. -/
def unopenedPlugin : Plugin := (XPluginStart Plugin.init none none).next

/-- The statics after a start that attached to a four byte segment which
another process had created. -/
def smallAttachedPlugin : Plugin := (XPluginStart Plugin.init none (some [1, 2, 3, 4])).next

/-- The statics after a start that attached to an eight byte segment. -/
def attachedPlugin : Plugin :=
  (XPluginStart Plugin.init none (some [1, 2, 3, 4, 5, 6, 7, 8])).next

/-- A buffer of `SHARED_MEMORY_SIZE + 1` bytes. -/
def oversizeBuffer : List Nat := List.replicate (SHARED_MEMORY_SIZE + 1) 7

/-- A buffer of exactly `SHARED_MEMORY_SIZE` bytes. -/
def fullBuffer : List Nat := List.replicate SHARED_MEMORY_SIZE 7


/-! ## The paths through one tick -/

/-- The lock call leaves the mapped segment and the key alone. -/
theorem lock_memory (m : QSharedMemory) (acquired : Bool) :
    (m.lock acquired).2.memory = m.memory ∧ (m.lock acquired).2.key = m.key := by
  unfold QSharedMemory.lock
  split
  · exact ⟨rfl, rfl⟩
  · split <;> exact ⟨rfl, rfl⟩

/-- After a lock call that returned true this process holds the lock. -/
theorem lock_true_held (m : QSharedMemory) (acquired : Bool)
    (h : (m.lock acquired).1 = true) : (m.lock acquired).2.lockedByMe = true := by
  unfold QSharedMemory.lock at h ⊢
  split
  · assumption
  · split
    · rfl
    · rename_i h1 h2
      simp [h1, h2] at h

/-- A lock call that returned false changed nothing. -/
theorem lock_false_same (m : QSharedMemory) (acquired : Bool)
    (h : (m.lock acquired).1 = false) : (m.lock acquired).2 = m := by
  unfold QSharedMemory.lock at h ⊢
  split
  · rfl
  · split
    · rename_i h1 h2
      simp [h1, h2] at h
    · rfl

/-- The only event that reports out-of-bounds bytes is `outOfBounds`, and it
is there exactly when there are such bytes. -/
theorem mem_spillEvents (beyond : List Nat) (e : Event) :
    e ∈ spillEvents beyond ↔ beyond ≠ [] ∧ e = .outOfBounds beyond := by
  unfold spillEvents
  cases beyond <;> simp

/-- No lock call and no `memcpy` among the out-of-bounds reports. -/
theorem spillEvents_filters (beyond : List Nat) :
    (spillEvents beyond).filter Event.isLock = [] ∧
      (spillEvents beyond).filter Event.isMemcpy = [] ∧
      (spillEvents beyond).filter Event.isUnlockedMemcpy = [] := by
  unfold spillEvents
  cases beyond <;> simp [Event.isLock, Event.isMemcpy, Event.isUnlockedMemcpy]

/-- The three ways in which a copy of a whole buffer is survived. -/
theorem memcpy_ok (dest : Option (List Nat)) (src : List Nat) (slack : Nat) (copied : Copied)
    (h : memcpy dest src src.length slack = .ok copied) :
    (dest = none ∧ src = [] ∧ copied = { memory := none, beyond := [] }) ∨
    (∃ region, dest = some region ∧ src.length ≤ region.length ∧
      copied = { memory := some (src ++ region.drop src.length), beyond := [] }) ∨
    (∃ region, dest = some region ∧ region.length < src.length ∧
      src.length - region.length ≤ slack ∧
      copied = { memory := some (src.take region.length)
                 beyond := src.drop region.length }) := by
  unfold memcpy at h
  cases dest with
  | none =>
    simp only at h
    split at h
    · rename_i h0
      injection h with h
      exact Or.inl ⟨rfl, List.length_eq_zero.mp h0, h.symm⟩
    · exact Except.noConfusion h
  | some region =>
    simp only [List.take_length] at h
    split at h
    · rename_i hfit
      injection h with h
      exact Or.inr (Or.inl ⟨region, rfl, hfit, h.symm⟩)
    · rename_i hfit
      split at h
      · rename_i hslack
        injection h with h
        exact Or.inr (Or.inr ⟨region, rfl, by omega, hslack, h.symm⟩)
      · exact Except.noConfusion h

/-- Path 1: the capture failed. -/
theorem tick_capture_failed (p : Plugin) (lockOk : Bool) (slack : Nat) :
    flightLoopCallback p none lockOk slack = .returned p 1 [] := rfl

/-- Path 2: the buffer is longer than the segment size constant. -/
theorem tick_oversize (p : Plugin) (buffer : List Nat) (lockOk : Bool) (slack : Nat)
    (h : SHARED_MEMORY_SIZE < buffer.length) :
    flightLoopCallback p (some buffer) lockOk slack =
      .returned p 1 [.log .warning "Data too large" [buffer.length, SHARED_MEMORY_SIZE]] := by
  simp [flightLoopCallback, h]

/-- Path 3: the lock call returned false. -/
theorem tick_lock_failed (p : Plugin) (buffer : List Nat) (lockOk : Bool) (slack : Nat)
    (h : buffer.length ≤ SHARED_MEMORY_SIZE) (hl : (p.sharedMemory.lock lockOk).1 = false) :
    flightLoopCallback p (some buffer) lockOk slack =
      .returned p 1 [.lock false, .log .info "Cannot lock" []] := by
  have hn : ¬ SHARED_MEMORY_SIZE < buffer.length := by omega
  simp [flightLoopCallback, hn, hl, lock_false_same _ _ hl]

/-- Path 4: the lock is taken and the process survives the copy. -/
theorem tick_copied (p : Plugin) (buffer : List Nat) (lockOk : Bool) (slack : Nat)
    (copied : Copied) (h : buffer.length ≤ SHARED_MEMORY_SIZE)
    (hl : (p.sharedMemory.lock lockOk).1 = true)
    (hc : memcpy p.sharedMemory.memory buffer buffer.length slack = .ok copied) :
    flightLoopCallback p (some buffer) lockOk slack =
      .returned
        { p with sharedMemory :=
            { key := p.sharedMemory.key, memory := copied.memory, lockedByMe := false } }
        1
        ([.lock true, .data, .memcpy buffer.length true] ++ spillEvents copied.beyond ++
         [.log .debug "Lock ok size" [buffer.length], .unlock]) := by
  have hn : ¬ SHARED_MEMORY_SIZE < buffer.length := by omega
  have hheld := lock_true_held _ _ hl
  have hmem := (lock_memory p.sharedMemory lockOk).1
  have hkey := (lock_memory p.sharedMemory lockOk).2
  simp [flightLoopCallback, hn, hl, QSharedMemory.data, hmem, hc, hheld,
    QSharedMemory.unlock, hkey]

/-- Path 5: the lock is taken and the process does not survive the copy. -/
theorem tick_copy_fault (p : Plugin) (buffer : List Nat) (lockOk : Bool) (slack : Nat)
    (f : Fault) (h : buffer.length ≤ SHARED_MEMORY_SIZE)
    (hl : (p.sharedMemory.lock lockOk).1 = true)
    (hc : memcpy p.sharedMemory.memory buffer buffer.length slack = .error f) :
    flightLoopCallback p (some buffer) lockOk slack =
      .faulted f [.lock true, .data, .memcpy buffer.length true] := by
  have hn : ¬ SHARED_MEMORY_SIZE < buffer.length := by omega
  have hheld := lock_true_held _ _ hl
  have hmem := (lock_memory p.sharedMemory lockOk).1
  simp [flightLoopCallback, hn, hl, QSharedMemory.data, hmem, hc, hheld]

/-- Path 4 when the buffer fits the attached region. -/
theorem tick_published (p : Plugin) (buffer region : List Nat) (lockOk : Bool) (slack : Nat)
    (h : buffer.length ≤ SHARED_MEMORY_SIZE) (hl : (p.sharedMemory.lock lockOk).1 = true)
    (hm : p.sharedMemory.memory = some region) (hfit : buffer.length ≤ region.length) :
    flightLoopCallback p (some buffer) lockOk slack =
      .returned
        { p with sharedMemory :=
            { key := p.sharedMemory.key
              memory := some (buffer ++ region.drop buffer.length)
              lockedByMe := false } }
        1
        [.lock true, .data, .memcpy buffer.length true,
         .log .debug "Lock ok size" [buffer.length], .unlock] := by
  have hc : memcpy p.sharedMemory.memory buffer buffer.length slack =
      .ok { memory := some (buffer ++ region.drop buffer.length), beyond := [] } := by
    simp [memcpy, hm, hfit]
  rw [tick_copied p buffer lockOk slack _ h hl hc]
  rfl

/-- Path 4 when the buffer is longer than the attached region and the excess
is within the slack: the region ends holding the first bytes of the buffer,
the others are stored behind it. -/
theorem tick_truncated (p : Plugin) (buffer region : List Nat) (lockOk : Bool) (slack : Nat)
    (h : buffer.length ≤ SHARED_MEMORY_SIZE) (hl : (p.sharedMemory.lock lockOk).1 = true)
    (hm : p.sharedMemory.memory = some region) (hshort : region.length < buffer.length)
    (hslack : buffer.length - region.length ≤ slack) :
    flightLoopCallback p (some buffer) lockOk slack =
      .returned
        { p with sharedMemory :=
            { key := p.sharedMemory.key
              memory := some (buffer.take region.length)
              lockedByMe := false } }
        1
        [.lock true, .data, .memcpy buffer.length true,
         .outOfBounds (buffer.drop region.length),
         .log .debug "Lock ok size" [buffer.length], .unlock] := by
  have hnfit : ¬ buffer.length ≤ region.length := by omega
  have hc : memcpy p.sharedMemory.memory buffer buffer.length slack =
      .ok { memory := some (buffer.take region.length)
            beyond := buffer.drop region.length } := by
    simp [memcpy, hm, hnfit, hslack]
  have hne : (buffer.drop region.length).isEmpty = false := by
    cases hd : buffer.drop region.length with
    | nil =>
      have := congrArg List.length hd
      simp at this
      omega
    | cons _ _ => rfl
  rw [tick_copied p buffer lockOk slack _ h hl hc]
  simp [spillEvents, hne]

/-- Path 5 when no segment is attached and the buffer is not empty. -/
theorem tick_null_destination (p : Plugin) (buffer : List Nat) (lockOk : Bool) (slack : Nat)
    (h : buffer.length ≤ SHARED_MEMORY_SIZE) (hl : (p.sharedMemory.lock lockOk).1 = true)
    (hm : p.sharedMemory.memory = none) (hne : 0 < buffer.length) :
    flightLoopCallback p (some buffer) lockOk slack =
      .faulted (.nullDestination buffer.length)
        [.lock true, .data, .memcpy buffer.length true] := by
  have hc : memcpy p.sharedMemory.memory buffer buffer.length slack =
      .error (.nullDestination buffer.length) := by
    have h0 : buffer.length ≠ 0 := by omega
    simp [memcpy, hm, h0]
  exact tick_copy_fault p buffer lockOk slack _ h hl hc

/-- Every tick takes one of the five paths. -/
theorem tick_cases (p : Plugin) (capture : Option (List Nat)) (lockOk : Bool) (slack : Nat) :
    flightLoopCallback p capture lockOk slack = .returned p 1 [] ∨
    (∃ n, flightLoopCallback p capture lockOk slack =
      .returned p 1 [.log .warning "Data too large" [n, SHARED_MEMORY_SIZE]]) ∨
    flightLoopCallback p capture lockOk slack =
      .returned p 1 [.lock false, .log .info "Cannot lock" []] ∨
    (∃ buffer copied, capture = some buffer ∧
      memcpy p.sharedMemory.memory buffer buffer.length slack = .ok copied ∧
      flightLoopCallback p capture lockOk slack =
        .returned
          { p with sharedMemory :=
              { key := p.sharedMemory.key, memory := copied.memory, lockedByMe := false } }
          1
          ([.lock true, .data, .memcpy buffer.length true] ++ spillEvents copied.beyond ++
           [.log .debug "Lock ok size" [buffer.length], .unlock])) ∨
    (∃ f n, flightLoopCallback p capture lockOk slack =
      .faulted f [.lock true, .data, .memcpy n true]) := by
  cases capture with
  | none => exact Or.inl rfl
  | some buffer =>
    by_cases hbig : SHARED_MEMORY_SIZE < buffer.length
    · exact Or.inr (Or.inl ⟨_, tick_oversize p buffer lockOk slack hbig⟩)
    · have hle : buffer.length ≤ SHARED_MEMORY_SIZE := by omega
      cases hl : (p.sharedMemory.lock lockOk).1
      · exact Or.inr (Or.inr (Or.inl (tick_lock_failed p buffer lockOk slack hle hl)))
      · cases hc : memcpy p.sharedMemory.memory buffer buffer.length slack with
        | error f =>
          exact Or.inr (Or.inr (Or.inr (Or.inr
            ⟨_, _, tick_copy_fault p buffer lockOk slack f hle hl hc⟩)))
        | ok copied =>
          exact Or.inr (Or.inr (Or.inr (Or.inl
            ⟨buffer, copied, rfl, hc, tick_copied p buffer lockOk slack copied hle hl hc⟩)))

/-! ## The tick: size ceiling, capture failure, lock failure -/

/-- C1: a tick whose capture succeeds with a buffer longer than
`SHARED_MEMORY_SIZE` returns with the statics (hence the region) untouched, its
only event is the "Data too large" warning, so no lock attempt is made; a
buffer of exactly `SHARED_MEMORY_SIZE` bytes is not refused: no such warning
is logged and the first thing the tick does is call `lock()`. -/
theorem oversize_buffer_never_reaches_the_region (p : Plugin) (big exact : List Nat)
    (lockOk : Bool) (slack : Nat) (hbig : SHARED_MEMORY_SIZE < big.length)
    (hexact : exact.length = SHARED_MEMORY_SIZE) :
    flightLoopCallback p (some big) lockOk slack =
        .returned p 1 [.log .warning "Data too large" [big.length, SHARED_MEMORY_SIZE]] ∧
      (flightLoopCallback p (some big) lockOk slack).events.filter Event.isLock = [] ∧
      (flightLoopCallback p (some exact) lockOk slack).events.head? =
        some (.lock (p.sharedMemory.lock lockOk).1) ∧
      (∀ args, Event.log .warning "Data too large" args ∉
        (flightLoopCallback p (some exact) lockOk slack).events) := by
  have hle : exact.length ≤ SHARED_MEMORY_SIZE := by omega
  refine ⟨tick_oversize p big lockOk slack hbig, ?_, ?_⟩
  · rw [tick_oversize p big lockOk slack hbig]
    simp [Outcome.events, Event.isLock]
  · cases hl : (p.sharedMemory.lock lockOk).1
    · rw [tick_lock_failed p exact lockOk slack hle hl]
      simp [Outcome.events]
    · cases hc : memcpy p.sharedMemory.memory exact exact.length slack with
      | error f =>
        rw [tick_copy_fault p exact lockOk slack f hle hl hc]
        simp [Outcome.events]
      | ok copied =>
        rw [tick_copied p exact lockOk slack copied hle hl hc]
        simp [Outcome.events, mem_spillEvents]

/-- Witness of C1 at the freshly loaded plugin, with buffers of 8197 and 8196
bytes. -/
theorem oversize_buffer_never_reaches_the_region_witness :
    flightLoopCallback Plugin.init (some oversizeBuffer) true 0 =
        .returned Plugin.init 1
          [.log .warning "Data too large" [oversizeBuffer.length, SHARED_MEMORY_SIZE]] ∧
      (flightLoopCallback Plugin.init (some oversizeBuffer) true 0).events.filter Event.isLock
        = [] ∧
      (flightLoopCallback Plugin.init (some fullBuffer) true 0).events.head? =
        some (.lock (Plugin.init.sharedMemory.lock true).1) ∧
      (∀ args, Event.log .warning "Data too large" args ∉
        (flightLoopCallback Plugin.init (some fullBuffer) true 0).events) :=
  oversize_buffer_never_reaches_the_region Plugin.init oversizeBuffer fullBuffer true 0
    (by simp [oversizeBuffer]) (by simp [fullBuffer])

/-- C3: a tick whose capture fails returns the statics unchanged (so the
region keeps its contents) with no event at all, in particular no lock
attempt, and its return value 1 is the value every returning tick yields, a
successful publication included. -/
theorem failed_capture_changes_nothing (p q next : Plugin) (lockOk l : Bool) (slack k : Nat)
    (capture : Option (List Nat)) (interval : ℚ) (events : List Event)
    (hreturned : flightLoopCallback q capture l k = .returned next interval events) :
    flightLoopCallback p none lockOk slack = .returned p interval [] ∧ interval = 1 := by
  suffices h : interval = 1 by
    subst h
    exact ⟨rfl, rfl⟩
  rcases tick_cases q capture l k with h | ⟨_, h⟩ | h | ⟨_, _, _, _, h⟩ | ⟨_, _, h⟩ <;>
    rw [h] at hreturned
  · injection hreturned with _ h2 _
    exact h2.symm
  · injection hreturned with _ h2 _
    exact h2.symm
  · injection hreturned with _ h2 _
    exact h2.symm
  · injection hreturned with _ h2 _
    exact h2.symm
  · exact Outcome.noConfusion hreturned

/-- Witness of C3: the failed capture at the unopened plugin, compared with a
publication of two bytes into an eight byte region. -/
theorem failed_capture_changes_nothing_witness :
    flightLoopCallback attachedPlugin (some [9, 9]) true 0 =
        .returned
          { attachedPlugin with sharedMemory :=
              { key := SHARED_MEMORY_KEY, memory := some [9, 9, 3, 4, 5, 6, 7, 8],
                lockedByMe := false } }
          1
          [.lock true, .data, .memcpy 2 true, .log .debug "Lock ok size" [2], .unlock] ∧
      flightLoopCallback unopenedPlugin none true 0 = .returned unopenedPlugin 1 [] ∧
      (1 : ℚ) = 1 :=
  ⟨rfl, failed_capture_changes_nothing unopenedPlugin attachedPlugin _ true true 0 0
    (some [9, 9]) 1 _ rfl⟩

/-- C4: when the lock call of a tick returns false, the tick returns with the
statics (hence the region) exactly as they were, calls neither `data()` nor
`memcpy` nor `unlock()`, and for a buffer within the size limit its whole
trace is the failed lock call and the "Cannot lock" message; and every tick,
however it ends, calls `lock()` at most once. -/
theorem lock_failure_skips_the_tick (p q : Plugin) (capture c : Option (List Nat))
    (buffer : List Nat) (lockOk l : Bool) (slack k : Nat)
    (hfail : (p.sharedMemory.lock lockOk).1 = false)
    (hsize : buffer.length ≤ SHARED_MEMORY_SIZE) :
    (flightLoopCallback p capture lockOk slack).next? = some p ∧
      Event.unlock ∉ (flightLoopCallback p capture lockOk slack).events ∧
      Event.data ∉ (flightLoopCallback p capture lockOk slack).events ∧
      (flightLoopCallback p capture lockOk slack).events.filter Event.isMemcpy = [] ∧
      flightLoopCallback p (some buffer) lockOk slack =
        .returned p 1 [.lock false, .log .info "Cannot lock" []] ∧
      ((flightLoopCallback q c l k).events.filter Event.isLock).length ≤ 1 := by
  refine ⟨?_, ?_, ?_, ?_, tick_lock_failed p buffer lockOk slack hsize hfail, ?_⟩
  · cases capture with
    | none => rfl
    | some b =>
      by_cases hbig : SHARED_MEMORY_SIZE < b.length
      · rw [tick_oversize p b lockOk slack hbig]; rfl
      · rw [tick_lock_failed p b lockOk slack (by omega) hfail]; rfl
  · cases capture with
    | none => simp [tick_capture_failed, Outcome.events]
    | some b =>
      by_cases hbig : SHARED_MEMORY_SIZE < b.length
      · rw [tick_oversize p b lockOk slack hbig]; simp [Outcome.events]
      · rw [tick_lock_failed p b lockOk slack (by omega) hfail]; simp [Outcome.events]
  · cases capture with
    | none => simp [tick_capture_failed, Outcome.events]
    | some b =>
      by_cases hbig : SHARED_MEMORY_SIZE < b.length
      · rw [tick_oversize p b lockOk slack hbig]; simp [Outcome.events]
      · rw [tick_lock_failed p b lockOk slack (by omega) hfail]; simp [Outcome.events]
  · cases capture with
    | none => simp [tick_capture_failed, Outcome.events]
    | some b =>
      by_cases hbig : SHARED_MEMORY_SIZE < b.length
      · rw [tick_oversize p b lockOk slack hbig]; simp [Outcome.events, Event.isMemcpy]
      · rw [tick_lock_failed p b lockOk slack (by omega) hfail]
        simp [Outcome.events, Event.isMemcpy]
  · rcases tick_cases q c l k with h | ⟨_, h⟩ | h | ⟨_, cp, _, _, h⟩ | ⟨_, _, h⟩ <;>
      rw [h] <;>
      simp [Outcome.events, Event.isLock, (spillEvents_filters _).1]

/-- Witness of C4: a tick on the created segment whose semaphore cannot be
taken. -/
theorem lock_failure_skips_the_tick_witness :
    (createdPlugin.sharedMemory.lock false).1 = false ∧
      ([5, 6] : List Nat).length ≤ SHARED_MEMORY_SIZE ∧
      (flightLoopCallback createdPlugin (some [5, 6]) false 0).next? = some createdPlugin ∧
      Event.unlock ∉ (flightLoopCallback createdPlugin (some [5, 6]) false 0).events ∧
      Event.data ∉ (flightLoopCallback createdPlugin (some [5, 6]) false 0).events ∧
      (flightLoopCallback createdPlugin (some [5, 6]) false 0).events.filter Event.isMemcpy
        = [] ∧
      flightLoopCallback createdPlugin (some [5, 6]) false 0 =
        .returned createdPlugin 1 [.lock false, .log .info "Cannot lock" []] ∧
      ((flightLoopCallback attachedPlugin (some [5, 6]) true 0).events.filter
        Event.isLock).length ≤ 1 :=
  ⟨rfl, by decide,
    lock_failure_skips_the_tick createdPlugin attachedPlugin (some [5, 6]) (some [5, 6])
      [5, 6] false true 0 0 rfl (by decide)⟩

/-! ## The tick: publication -/

/-- The region after a copy of `buffer` to its start: same length, the buffer
in front, the old bytes behind. -/
theorem copy_to_start (buffer region : List Nat) (hfit : buffer.length ≤ region.length) :
    (buffer ++ region.drop buffer.length).length = region.length ∧
      (buffer ++ region.drop buffer.length).take buffer.length = buffer ∧
      (∀ i, i < buffer.length → (buffer ++ region.drop buffer.length)[i]? = buffer[i]?) ∧
      (∀ i, buffer.length ≤ i → (buffer ++ region.drop buffer.length)[i]? = region[i]?) := by
  refine ⟨?_, ?_, ?_, ?_⟩
  · simp
    omega
  · simp
  · intro i hi
    exact List.getElem?_append_left hi
  · intro i hi
    rw [List.getElem?_append_right hi, List.getElem?_drop]
    congr 1
    omega

/-- Publication where the code is sound: when the object is attached to a
region of at least `N` bytes, a tick with `N ≤ SHARED_MEMORY_SIZE` captured
bytes and the lock taken returns 1, the region keeps its length, its first
`N` bytes are the buffer, the bytes from offset `N` on are unchanged, nothing
is stored out of bounds and the lock is released. -/
theorem publication_copies_the_buffer (p : Plugin) (buffer region : List Nat) (lockOk : Bool)
    (slack : Nat) (hsize : buffer.length ≤ SHARED_MEMORY_SIZE)
    (hlock : (p.sharedMemory.lock lockOk).1 = true)
    (hattached : p.sharedMemory.memory = some region)
    (hfit : buffer.length ≤ region.length) :
    ∃ next events after,
      flightLoopCallback p (some buffer) lockOk slack = .returned next 1 events ∧
      next.sharedMemory.memory = some after ∧
      after.length = region.length ∧
      after.take buffer.length = buffer ∧
      (∀ i, i < buffer.length → after[i]? = buffer[i]?) ∧
      (∀ i, buffer.length ≤ i → after[i]? = region[i]?) ∧
      next.sharedMemory.lockedByMe = false ∧
      events = [.lock true, .data, .memcpy buffer.length true,
        .log .debug "Lock ok size" [buffer.length], .unlock] := by
  have h := copy_to_start buffer region hfit
  exact ⟨_, _, _, tick_published p buffer region lockOk slack hsize hlock hattached hfit, rfl,
    h.1, h.2.1, h.2.2.1, h.2.2.2, rfl, rfl⟩

/-- C2, the code at the failing inputs.  The three conditions of the claim
hold (capture succeeded, `N ≤ SHARED_MEMORY_SIZE`, `lock()` returned true),
yet: on the reachable plugin attached to a four byte segment a tick with six
bytes returns with the region holding only `[9, 8, 7, 6]`, the bytes `5, 4`
stored behind it (with no writable byte behind the region the process does
not survive the copy); and on the reachable plugin whose start could neither
create nor attach, a tick with one byte copies to the null pointer and does
not return.  In neither are the first `N` bytes of the region the buffer. -/
theorem publication_into_short_or_missing_region :
    run Plugin.init [.start none (some [1, 2, 3, 4]), .enable] =
        some (XPluginEnable smallAttachedPlugin).1 ∧
      ([9, 8, 7, 6, 5, 4] : List Nat).length ≤ SHARED_MEMORY_SIZE ∧
      ((XPluginEnable smallAttachedPlugin).1.sharedMemory.lock true).1 = true ∧
      flightLoopCallback (XPluginEnable smallAttachedPlugin).1 (some [9, 8, 7, 6, 5, 4]) true
          4092 =
        .returned
          { (XPluginEnable smallAttachedPlugin).1 with sharedMemory :=
              { key := SHARED_MEMORY_KEY, memory := some [9, 8, 7, 6], lockedByMe := false } }
          1
          [.lock true, .data, .memcpy 6 true, .outOfBounds [5, 4],
           .log .debug "Lock ok size" [6], .unlock] ∧
      flightLoopCallback (XPluginEnable smallAttachedPlugin).1 (some [9, 8, 7, 6, 5, 4]) true
          0 =
        .faulted (.overrun 6 4) [.lock true, .data, .memcpy 6 true] ∧
      run Plugin.init [.start none none, .enable] = some (XPluginEnable unopenedPlugin).1 ∧
      ([9] : List Nat).length ≤ SHARED_MEMORY_SIZE ∧
      ((XPluginEnable unopenedPlugin).1.sharedMemory.lock true).1 = true ∧
      flightLoopCallback (XPluginEnable unopenedPlugin).1 (some [9]) true 4092 =
        .faulted (.nullDestination 1) [.lock true, .data, .memcpy 1 true] :=
  ⟨rfl, by decide, rfl, rfl, rfl, rfl, by decide, rfl, rfl⟩

/-! ## Opening the channel -/

/-- What `create` and `attach` leave: on success the object as it was, now
mapped to the new (zero filled, at least `size` bytes) or the existing
segment; on failure the object exactly as it was. -/
theorem create_attach_results (m : QSharedMemory) (size : Nat) (createOs : Option Nat)
    (attachOs : Option (List Nat)) :
    ((m.create size createOs).1 = true →
        ∃ pad, createOs = some pad ∧ m.memory = none ∧
          (m.create size createOs).2 =
            { m with memory := some (List.replicate (size + pad) 0) }) ∧
      ((m.create size createOs).1 = false → (m.create size createOs).2 = m) ∧
      ((m.attach attachOs).1 = true →
        ∃ segment, attachOs = some segment ∧ m.memory = none ∧
          (m.attach attachOs).2 = { m with memory := some segment }) ∧
      ((m.attach attachOs).1 = false → (m.attach attachOs).2 = m) := by
  refine ⟨?_, ?_, ?_, ?_⟩
  · intro h
    unfold QSharedMemory.create at h ⊢
    split at h
    · simp at h
    · split at h
      · simp at h
      · rename_i hsz hatt
        cases createOs with
        | none => simp at h
        | some pad =>
          refine ⟨pad, rfl, ?_, ?_⟩
          · simpa [QSharedMemory.isAttached] using hatt
          · simp [hsz, hatt]
  · intro h
    unfold QSharedMemory.create at h ⊢
    split
    · rfl
    · split
      · rfl
      · rename_i hsz hatt
        cases createOs with
        | none => rfl
        | some pad => simp [hsz, hatt] at h
  · intro h
    unfold QSharedMemory.attach at h ⊢
    split at h
    · simp at h
    · rename_i hatt
      cases attachOs with
      | none => simp at h
      | some segment =>
        refine ⟨segment, rfl, ?_, ?_⟩
        · simpa [QSharedMemory.isAttached] using hatt
        · simp [hatt]
  · intro h
    unfold QSharedMemory.attach at h ⊢
    split
    · rfl
    · rename_i hatt
      cases attachOs with
      | none => rfl
      | some segment => simp [hatt] at h

/-- On a detached object `setKey` only sets the key, and `create` succeeds
when the system creates the segment. -/
theorem create_on_detached (m : QSharedMemory) (key : String) (pad : Nat)
    (hm : m.memory = none) :
    (m.setKey key).memory = none ∧
      ((m.setKey key).create SHARED_MEMORY_SIZE (some pad)).1 = true := by
  have h1 : (m.setKey key).memory = none := by
    unfold QSharedMemory.setKey QSharedMemory.detach
    split
    · exact hm
    · simp [QSharedMemory.isAttached, hm]
  refine ⟨h1, ?_⟩
  simp [QSharedMemory.create, QSharedMemory.isAttached, h1, SHARED_MEMORY_SIZE]

/-- C6: `XPluginStart` first sets the key "LittleXpConnect" and calls `create`
with 8196 bytes.  When that `create` succeeds the plugin ends attached to the
new zero filled region of at least 8196 bytes and no `attach` is tried (on a
plugin that is not yet attached this happens whenever the system creates the
segment).  `attach` is called if and only if `create` returned false; when
`create` fails and `attach` succeeds the plugin ends attached to the existing
segment; when both fail the shared memory object is left as `setKey` left it,
so an unopened plugin stays unopened.  The return value is 1 whatever
happened; a failed `create` is reported by the warning "Cannot create" and a
failed `attach` by the different warning "Cannot attach", each logged exactly
in its own case. -/
theorem start_creates_or_else_attaches (p : Plugin) (createOs : Option Nat)
    (attachOs : Option (List Nat)) :
    SHARED_MEMORY_KEY = "LittleXpConnect" ∧ SHARED_MEMORY_SIZE = 8196 ∧
      (XPluginStart p createOs attachOs).events.take 2 =
        [.setKey SHARED_MEMORY_KEY,
         .create SHARED_MEMORY_SIZE
           ((p.sharedMemory.setKey SHARED_MEMORY_KEY).create SHARED_MEMORY_SIZE createOs).1] ∧
      ((∃ ok, Event.attach ok ∈ (XPluginStart p createOs attachOs).events) ↔
        Event.create SHARED_MEMORY_SIZE false ∈ (XPluginStart p createOs attachOs).events) ∧
      (Event.create SHARED_MEMORY_SIZE false ∈ (XPluginStart p createOs attachOs).events →
        Event.attach true ∈ (XPluginStart p createOs attachOs).events →
        (XPluginStart p createOs attachOs).next.sharedMemory.isAttached = true ∧
        (XPluginStart p createOs attachOs).next.sharedMemory.memory = attachOs ∧
        (∀ text, Event.log .warning text [] ∈ (XPluginStart p createOs attachOs).events →
          text = "Cannot create")) ∧
      (XPluginStart p createOs attachOs).value = 1 ∧
      (Event.log .warning "Cannot create" [] ∈ (XPluginStart p createOs attachOs).events ↔
        Event.create SHARED_MEMORY_SIZE false ∈ (XPluginStart p createOs attachOs).events) ∧
      (Event.log .warning "Cannot attach" [] ∈ (XPluginStart p createOs attachOs).events ↔
        Event.attach false ∈ (XPluginStart p createOs attachOs).events) ∧
      Event.log .warning "Cannot create" [] ≠ Event.log .warning "Cannot attach" [] ∧
      (Event.create SHARED_MEMORY_SIZE true ∈ (XPluginStart p createOs attachOs).events →
        ∃ pad, createOs = some pad ∧
          (XPluginStart p createOs attachOs).next.sharedMemory.memory =
            some (List.replicate (SHARED_MEMORY_SIZE + pad) 0) ∧
          (XPluginStart p createOs attachOs).next.sharedMemory.isAttached = true ∧
          (∀ region, (XPluginStart p createOs attachOs).next.sharedMemory.memory = some region →
            SHARED_MEMORY_SIZE ≤ region.length) ∧
          (XPluginStart p createOs attachOs).events =
            [.setKey SHARED_MEMORY_KEY, .create SHARED_MEMORY_SIZE true,
             .log .info "Created" []]) ∧
      (p.sharedMemory.memory = none → ∀ pad, createOs = some pad →
        Event.create SHARED_MEMORY_SIZE true ∈ (XPluginStart p createOs attachOs).events) ∧
      (Event.attach false ∈ (XPluginStart p createOs attachOs).events →
        (XPluginStart p createOs attachOs).next.sharedMemory =
          p.sharedMemory.setKey SHARED_MEMORY_KEY ∧
        (p.sharedMemory.memory = none →
          (XPluginStart p createOs attachOs).next.sharedMemory.memory = none)) ∧
      (XPluginStart p createOs attachOs).next.sharedMemory.key = SHARED_MEMORY_KEY := by
  have hres := create_attach_results (p.sharedMemory.setKey SHARED_MEMORY_KEY)
    SHARED_MEMORY_SIZE createOs attachOs
  have hres2 := create_attach_results
    ((p.sharedMemory.setKey SHARED_MEMORY_KEY).create SHARED_MEMORY_SIZE createOs).2
    SHARED_MEMORY_SIZE createOs attachOs
  refine ⟨rfl, rfl, rfl, ?_, ?_, rfl, ?_, ?_, by decide, ?_, ?_, ?_, ?_⟩
  · cases hc : ((p.sharedMemory.setKey SHARED_MEMORY_KEY).create SHARED_MEMORY_SIZE createOs).1 <;>
      cases ha : (((p.sharedMemory.setKey SHARED_MEMORY_KEY).create
        SHARED_MEMORY_SIZE createOs).2.attach attachOs).1 <;>
      simp [XPluginStart, hc, ha]
  · intro hcreate hattach
    cases hc : ((p.sharedMemory.setKey SHARED_MEMORY_KEY).create SHARED_MEMORY_SIZE createOs).1
    · cases ha : (((p.sharedMemory.setKey SHARED_MEMORY_KEY).create
        SHARED_MEMORY_SIZE createOs).2.attach attachOs).1
      · simp [XPluginStart, hc, ha] at hattach
      · obtain ⟨segment, hseg, _, hafter⟩ := hres2.2.2.1 ha
        subst hseg
        refine ⟨?_, ?_, ?_⟩
        · simp [XPluginStart, hc, QSharedMemory.isAttached, hafter]
        · simp [XPluginStart, hc, hafter]
        · intro text
          simp [XPluginStart, hc, ha]
    · simp [XPluginStart, hc] at hcreate
  · cases hc : ((p.sharedMemory.setKey SHARED_MEMORY_KEY).create SHARED_MEMORY_SIZE createOs).1 <;>
      cases ha : (((p.sharedMemory.setKey SHARED_MEMORY_KEY).create
        SHARED_MEMORY_SIZE createOs).2.attach attachOs).1 <;>
      simp [XPluginStart, hc, ha]
  · cases hc : ((p.sharedMemory.setKey SHARED_MEMORY_KEY).create SHARED_MEMORY_SIZE createOs).1 <;>
      cases ha : (((p.sharedMemory.setKey SHARED_MEMORY_KEY).create
        SHARED_MEMORY_SIZE createOs).2.attach attachOs).1 <;>
      simp [XPluginStart, hc, ha]
  · intro hcreate
    cases hc : ((p.sharedMemory.setKey SHARED_MEMORY_KEY).create SHARED_MEMORY_SIZE createOs).1
    · cases ha : (((p.sharedMemory.setKey SHARED_MEMORY_KEY).create
        SHARED_MEMORY_SIZE createOs).2.attach attachOs).1 <;>
        simp [XPluginStart, hc, ha] at hcreate
    · obtain ⟨pad, hpad, _, hafter⟩ := hres.1 hc
      refine ⟨pad, hpad, ?_, ?_, ?_, ?_⟩
      · simp [XPluginStart, hc, hafter]
      · simp [XPluginStart, hc, hafter, QSharedMemory.isAttached]
      · intro region hregion
        simp only [XPluginStart, hc, if_true, hafter, Option.some.injEq] at hregion
        rw [← hregion]
        simp
      · simp [XPluginStart, hc]
  · intro hm pad hpad
    subst hpad
    have hc := (create_on_detached p.sharedMemory SHARED_MEMORY_KEY pad hm).2
    simp [XPluginStart, hc]
  · intro hattach
    cases hc : ((p.sharedMemory.setKey SHARED_MEMORY_KEY).create SHARED_MEMORY_SIZE createOs).1
    · cases ha : (((p.sharedMemory.setKey SHARED_MEMORY_KEY).create
        SHARED_MEMORY_SIZE createOs).2.attach attachOs).1
      · have h1 := hres.2.1 hc
        have h2 := hres2.2.2.2 ha
        have hnext : (XPluginStart p createOs attachOs).next.sharedMemory =
            p.sharedMemory.setKey SHARED_MEMORY_KEY := by
          simp only [XPluginStart, hc, Bool.false_eq_true, if_false]
          rw [h2, h1]
        refine ⟨hnext, fun hm => ?_⟩
        rw [hnext]
        exact (create_on_detached p.sharedMemory SHARED_MEMORY_KEY 0 hm).1
      · simp [XPluginStart, hc, ha] at hattach
    · simp [XPluginStart, hc] at hattach
  · have k1 : (p.sharedMemory.setKey SHARED_MEMORY_KEY).key = SHARED_MEMORY_KEY := by
      unfold QSharedMemory.setKey
      split
      · rename_i h
        exact h.symm
      · rfl
    cases hc : ((p.sharedMemory.setKey SHARED_MEMORY_KEY).create SHARED_MEMORY_SIZE createOs).1
    · cases ha : (((p.sharedMemory.setKey SHARED_MEMORY_KEY).create
        SHARED_MEMORY_SIZE createOs).2.attach attachOs).1
      · have h1 := hres.2.1 hc
        have h2 := hres2.2.2.2 ha
        simp only [XPluginStart, hc, Bool.false_eq_true, if_false]
        rw [h2, h1, k1]
      · obtain ⟨segment, _, _, hafter⟩ := hres2.2.2.1 ha
        have h1 := hres.2.1 hc
        simp only [XPluginStart, hc, Bool.false_eq_true, if_false]
        rw [hafter, h1]
        exact k1
    · obtain ⟨pad, _, _, hafter⟩ := hres.1 hc
      simp only [XPluginStart, hc, if_true]
      rw [hafter]
      exact k1

/-- Witness of C6: the first instance, whose `create` succeeds, the second
instance, whose `create` fails and whose `attach` finds the four byte segment
of another process, and a start in which both fail. -/
theorem start_creates_or_else_attaches_witness :
    (XPluginStart Plugin.init (some 0) none).events =
        [.setKey SHARED_MEMORY_KEY, .create SHARED_MEMORY_SIZE true,
         .log .info "Created" []] ∧
      (∃ pad, (some 0 : Option Nat) = some pad ∧
        (XPluginStart Plugin.init (some 0) none).next.sharedMemory.memory =
          some (List.replicate (SHARED_MEMORY_SIZE + pad) 0) ∧
        (XPluginStart Plugin.init (some 0) none).next.sharedMemory.isAttached = true ∧
        (∀ region, (XPluginStart Plugin.init (some 0) none).next.sharedMemory.memory
            = some region → SHARED_MEMORY_SIZE ≤ region.length) ∧
        (XPluginStart Plugin.init (some 0) none).events =
          [.setKey SHARED_MEMORY_KEY, .create SHARED_MEMORY_SIZE true,
           .log .info "Created" []]) ∧
      Event.create SHARED_MEMORY_SIZE false ∈
        (XPluginStart Plugin.init none (some [1, 2, 3, 4])).events ∧
      Event.attach true ∈ (XPluginStart Plugin.init none (some [1, 2, 3, 4])).events ∧
      (XPluginStart Plugin.init none (some [1, 2, 3, 4])).next.sharedMemory.isAttached
        = true ∧
      (XPluginStart Plugin.init none (some [1, 2, 3, 4])).next.sharedMemory.memory
        = some [1, 2, 3, 4] ∧
      (∀ text, Event.log .warning text [] ∈
          (XPluginStart Plugin.init none (some [1, 2, 3, 4])).events →
        text = "Cannot create") ∧
      (XPluginStart Plugin.init none none).events =
        [.setKey SHARED_MEMORY_KEY, .create SHARED_MEMORY_SIZE false,
         .log .warning "Cannot create" [], .attach false,
         .log .warning "Cannot attach" []] ∧
      (XPluginStart Plugin.init none none).next.sharedMemory =
        Plugin.init.sharedMemory.setKey SHARED_MEMORY_KEY ∧
      (Plugin.init.sharedMemory.memory = none →
        (XPluginStart Plugin.init none none).next.sharedMemory.memory = none) :=
  ⟨rfl,
    (start_creates_or_else_attaches Plugin.init (some 0) none).2.2.2.2.2.2.2.2.2.1
      ((start_creates_or_else_attaches Plugin.init (some 0) none).2.2.2.2.2.2.2.2.2.2.1
        rfl 0 rfl),
    by decide, by decide,
    ((start_creates_or_else_attaches Plugin.init none (some [1, 2, 3, 4])).2.2.2.2.1
      (by decide) (by decide)).1,
    ((start_creates_or_else_attaches Plugin.init none (some [1, 2, 3, 4])).2.2.2.2.1
      (by decide) (by decide)).2.1,
    ((start_creates_or_else_attaches Plugin.init none (some [1, 2, 3, 4])).2.2.2.2.1
      (by decide) (by decide)).2.2,
    rfl,
    ((start_creates_or_else_attaches Plugin.init none none).2.2.2.2.2.2.2.2.2.2.2.1
      (by decide)).1,
    ((start_creates_or_else_attaches Plugin.init none none).2.2.2.2.2.2.2.2.2.2.2.1
      (by decide)).2⟩

/-! ## Invariants of every reachable state -/

/-- The calls `setKey`, `create`, `attach` and `detach` leave `lockedByMe` as
it is. -/
theorem lifecycle_calls_keep_lock_flag (m : QSharedMemory) (key : String) (size : Nat)
    (createOs : Option Nat) (attachOs : Option (List Nat)) :
    m.detach.2.lockedByMe = m.lockedByMe ∧
      (m.setKey key).lockedByMe = m.lockedByMe ∧
      (m.create size createOs).2.lockedByMe = m.lockedByMe ∧
      (m.attach attachOs).2.lockedByMe = m.lockedByMe := by
  refine ⟨?_, ?_, ?_, ?_⟩
  · unfold QSharedMemory.detach
    split <;> rfl
  · unfold QSharedMemory.setKey QSharedMemory.detach
    split
    · rfl
    · split <;> rfl
  · unfold QSharedMemory.create
    split
    · rfl
    · split
      · rfl
      · cases createOs <;> rfl
  · unfold QSharedMemory.attach
    split
    · rfl
    · cases attachOs <;> rfl

/-- After `setKey key` the key is `key`, and `create` and `attach` keep the
key. -/
theorem lifecycle_calls_key (m : QSharedMemory) (key : String) (size : Nat)
    (createOs : Option Nat) (attachOs : Option (List Nat)) :
    (m.setKey key).key = key ∧
      (m.create size createOs).2.key = m.key ∧
      (m.attach attachOs).2.key = m.key := by
  refine ⟨?_, ?_, ?_⟩
  · unfold QSharedMemory.setKey
    split
    · rename_i h
      exact h.symm
    · rfl
  · unfold QSharedMemory.create
    split
    · rfl
    · split
      · rfl
      · cases createOs <;> rfl
  · unfold QSharedMemory.attach
    split
    · rfl
    · cases attachOs <;> rfl

/-- On an object that is attached under the plugin's key, the three calls of
`XPluginStart` change nothing. -/
theorem start_on_attached (m : QSharedMemory) (region : List Nat) (createOs : Option Nat)
    (attachOs : Option (List Nat)) (hm : m.memory = some region)
    (hk : m.key = SHARED_MEMORY_KEY) :
    m.setKey SHARED_MEMORY_KEY = m ∧
      (m.create SHARED_MEMORY_SIZE createOs) = (false, m) ∧
      (m.attach attachOs) = (false, m) := by
  refine ⟨?_, ?_, ?_⟩
  · simp [QSharedMemory.setKey, hk]
  · simp [QSharedMemory.create, QSharedMemory.isAttached, hm, SHARED_MEMORY_SIZE]
  · simp [QSharedMemory.attach, QSharedMemory.isAttached, hm]

/-- The lock is not held and an attached object carries the plugin's key:
this holds initially and every operation that returns keeps it. -/
theorem step_keeps_invariant (p q : Plugin) (op : Op)
    (hlock : p.sharedMemory.lockedByMe = false)
    (hkey : p.sharedMemory.memory ≠ none → p.sharedMemory.key = SHARED_MEMORY_KEY)
    (hstep : (step p op).1 = some q) :
    q.sharedMemory.lockedByMe = false ∧
      (q.sharedMemory.memory ≠ none → q.sharedMemory.key = SHARED_MEMORY_KEY) := by
  cases op with
  | start c a =>
    simp only [step, Option.some.injEq] at hstep
    subst hstep
    have h1 := lifecycle_calls_keep_lock_flag p.sharedMemory SHARED_MEMORY_KEY 0 none none
    have h2 := lifecycle_calls_keep_lock_flag (p.sharedMemory.setKey SHARED_MEMORY_KEY)
      "" SHARED_MEMORY_SIZE c none
    have h3 := lifecycle_calls_keep_lock_flag
      ((p.sharedMemory.setKey SHARED_MEMORY_KEY).create SHARED_MEMORY_SIZE c).2 "" 0 none a
    have k1 := lifecycle_calls_key p.sharedMemory SHARED_MEMORY_KEY 0 none none
    have k2 := lifecycle_calls_key (p.sharedMemory.setKey SHARED_MEMORY_KEY)
      "" SHARED_MEMORY_SIZE c none
    have k3 := lifecycle_calls_key
      ((p.sharedMemory.setKey SHARED_MEMORY_KEY).create SHARED_MEMORY_SIZE c).2 "" 0 none a
    simp only [XPluginStart]
    split
    · exact ⟨by rw [h2.2.2.1, h1.2.1, hlock], fun _ => by rw [k2.2.1, k1.1]⟩
    · exact ⟨by rw [h3.2.2.2, h2.2.2.1, h1.2.1, hlock], fun _ => by rw [k3.2.2, k2.2.1, k1.1]⟩
  | enable =>
    simp only [step, Option.some.injEq] at hstep
    subst hstep
    exact ⟨hlock, hkey⟩
  | disable =>
    simp only [step, Option.some.injEq] at hstep
    subst hstep
    exact ⟨hlock, hkey⟩
  | stop =>
    simp only [step, Option.some.injEq] at hstep
    subst hstep
    have h1 := lifecycle_calls_keep_lock_flag p.sharedMemory "" 0 none none
    refine ⟨by simp only [XPluginStop]; rw [h1.1, hlock], ?_⟩
    intro hne
    simp only [XPluginStop, QSharedMemory.detach] at hne ⊢
    split at hne
    · exact absurd rfl hne
    · rename_i hna
      split
      · rename_i ha
        exact absurd ha hna
      · exact hkey hne
  | tick c l k =>
    simp only [step] at hstep
    rcases tick_cases p c l k with h | ⟨_, h⟩ | h | ⟨b, cp, _, hc, h⟩ | ⟨_, _, h⟩ <;>
      rw [h] at hstep <;> simp only [Outcome.next?, Option.some.injEq] at hstep
    · subst hstep; exact ⟨hlock, hkey⟩
    · subst hstep; exact ⟨hlock, hkey⟩
    · subst hstep; exact ⟨hlock, hkey⟩
    · subst hstep
      refine ⟨rfl, fun hne => ?_⟩
      apply hkey
      rcases memcpy_ok _ _ _ _ hc with ⟨_, _, hcp⟩ | ⟨r, hm, _, _⟩ | ⟨r, hm, _, _, _⟩
      · subst hcp
        exact absurd rfl hne
      · rw [hm]
        exact Option.some_ne_none _
      · rw [hm]
        exact Option.some_ne_none _
    · exact absurd hstep (by simp)

/-- The invariant along a whole run. -/
theorem run_keeps_invariant (ops : List Op) (p q : Plugin)
    (hlock : p.sharedMemory.lockedByMe = false)
    (hkey : p.sharedMemory.memory ≠ none → p.sharedMemory.key = SHARED_MEMORY_KEY)
    (hrun : run p ops = some q) :
    q.sharedMemory.lockedByMe = false ∧
      (q.sharedMemory.memory ≠ none → q.sharedMemory.key = SHARED_MEMORY_KEY) := by
  induction ops generalizing p with
  | nil =>
    simp only [run, Option.some.injEq] at hrun
    subst hrun
    exact ⟨hlock, hkey⟩
  | cons op rest ih =>
    simp only [run] at hrun
    cases hs : (step p op).1 with
    | none => rw [hs] at hrun; exact absurd hrun (by simp)
    | some r =>
      rw [hs] at hrun
      have hr := step_keeps_invariant p r op hlock hkey hs
      exact ih r hr.1 hr.2 hrun

/-- The invariant of every state reachable from the initial statics. -/
theorem reachable_invariant (ops : List Op) (p : Plugin)
    (hreach : run Plugin.init ops = some p) :
    p.sharedMemory.lockedByMe = false ∧
      (p.sharedMemory.memory ≠ none → p.sharedMemory.key = SHARED_MEMORY_KEY) :=
  run_keeps_invariant ops Plugin.init p rfl (fun h => absurd rfl h) hreach

/-- After `XPluginStop` no segment is mapped and `pluginRunning` is false. -/
theorem stop_detaches (p : Plugin) :
    (XPluginStop p).1.sharedMemory.memory = none ∧ (XPluginStop p).1.pluginRunning = false := by
  refine ⟨?_, rfl⟩
  simp only [XPluginStop, QSharedMemory.detach]
  split
  · rfl
  · rename_i h
    simpa [QSharedMemory.isAttached] using h

/-- On statics that are detached and not running, `XPluginStop` changes
nothing. -/
theorem stop_on_stopped (q : Plugin) (hm : q.sharedMemory.memory = none)
    (hr : q.pluginRunning = false) : (XPluginStop q).1 = q := by
  cases q with
  | mk app running sm registered =>
    cases sm with
    | mk key memory locked =>
      simp only at hm hr
      subst hm
      subst hr
      rfl

/-- A run of a concatenation is the run of the second part from the end of
the first. -/
theorem run_append (ops more : List Op) (p : Plugin) :
    run p (ops ++ more) = (run p ops).bind (fun q => run q more) := by
  induction ops generalizing p with
  | nil => rfl
  | cons op rest ih =>
    simp only [List.cons_append, run]
    cases (step p op).1 with
    | none => rfl
    | some r => exact ih r

/-! ## Mutual exclusion over whole runs -/

/-- What holds of the lock and of the copies over whole runs.  Let `p` be
reached from the initial statics by any sequence of the five operations and
let `op` be any next operation.  The lock is not held in `p` nor after `op`
returns; every `memcpy` that `op` issues is issued with the lock held, and
`op` issues at most one; an operation other than a tick issues none and
leaves the bytes of a mapped region as they are; and after a tick that
returns, the region is exactly what it was, or the captured buffer followed
by the old bytes from offset `N` on, or (when the region is shorter than the
buffer) only the first bytes of the buffer. -/
theorem runs_keep_the_lock_discipline (ops : List Op) (op : Op) (p : Plugin)
    (hreach : run Plugin.init ops = some p) :
    p.sharedMemory.lockedByMe = false ∧
      (∀ q, (step p op).1 = some q → q.sharedMemory.lockedByMe = false) ∧
      (step p op).2.filter Event.isUnlockedMemcpy = [] ∧
      ((step p op).2.filter Event.isMemcpy).length ≤ 1 ∧
      ((∀ c l k, op ≠ .tick c l k) →
        (step p op).2.filter Event.isMemcpy = [] ∧
        ∀ q region after, (step p op).1 = some q → p.sharedMemory.memory = some region →
          q.sharedMemory.memory = some after → after = region) ∧
      (∀ c l k q, op = .tick c l k → (step p op).1 = some q →
        q.sharedMemory.memory = p.sharedMemory.memory ∨
        (∃ buffer region, c = some buffer ∧ p.sharedMemory.memory = some region ∧
          buffer.length ≤ region.length ∧
          q.sharedMemory.memory = some (buffer ++ region.drop buffer.length)) ∨
        (∃ buffer region, c = some buffer ∧ p.sharedMemory.memory = some region ∧
          region.length < buffer.length ∧
          q.sharedMemory.memory = some (buffer.take region.length))) := by
  have hinv := reachable_invariant ops p hreach
  refine ⟨hinv.1, fun q hq => (step_keeps_invariant p q op hinv.1 hinv.2 hq).1, ?_, ?_, ?_, ?_⟩
  · cases op with
    | start c a =>
      cases hc : ((p.sharedMemory.setKey SHARED_MEMORY_KEY).create SHARED_MEMORY_SIZE c).1 <;>
        cases ha : (((p.sharedMemory.setKey SHARED_MEMORY_KEY).create
          SHARED_MEMORY_SIZE c).2.attach a).1 <;>
        simp [step, XPluginStart, hc, ha, Event.isUnlockedMemcpy]
    | enable => simp [step, XPluginEnable, Event.isUnlockedMemcpy]
    | disable => simp [step, XPluginDisable, Event.isUnlockedMemcpy]
    | stop =>
      cases hd : p.sharedMemory.detach.1 <;>
        simp [step, XPluginStop, hd, Event.isUnlockedMemcpy]
    | tick c l k =>
      rcases tick_cases p c l k with h | ⟨_, h⟩ | h | ⟨_, _, _, _, h⟩ | ⟨_, _, h⟩ <;>
        simp [step, h, Outcome.events, Event.isUnlockedMemcpy, (spillEvents_filters _).2.2]
  · cases op with
    | start c a =>
      cases hc : ((p.sharedMemory.setKey SHARED_MEMORY_KEY).create SHARED_MEMORY_SIZE c).1 <;>
        cases ha : (((p.sharedMemory.setKey SHARED_MEMORY_KEY).create
          SHARED_MEMORY_SIZE c).2.attach a).1 <;>
        simp [step, XPluginStart, hc, ha, Event.isMemcpy]
    | enable => simp [step, XPluginEnable, Event.isMemcpy]
    | disable => simp [step, XPluginDisable, Event.isMemcpy]
    | stop =>
      cases hd : p.sharedMemory.detach.1 <;>
        simp [step, XPluginStop, hd, Event.isMemcpy]
    | tick c l k =>
      rcases tick_cases p c l k with h | ⟨_, h⟩ | h | ⟨_, _, _, _, h⟩ | ⟨_, _, h⟩ <;>
        simp [step, h, Outcome.events, Event.isMemcpy, (spillEvents_filters _).2.1]
  · intro hnot
    cases op with
    | start c a =>
      refine ⟨?_, ?_⟩
      · cases hc : ((p.sharedMemory.setKey SHARED_MEMORY_KEY).create SHARED_MEMORY_SIZE c).1 <;>
          cases ha : (((p.sharedMemory.setKey SHARED_MEMORY_KEY).create
            SHARED_MEMORY_SIZE c).2.attach a).1 <;>
          simp [step, XPluginStart, hc, ha, Event.isMemcpy]
      · intro q region after hq hm hafter
        have hk := hinv.2 (by rw [hm]; exact Option.some_ne_none _)
        have h := start_on_attached p.sharedMemory region c a hm hk
        simp only [step, Option.some.injEq] at hq
        subst hq
        simp only [XPluginStart, h.1, h.2.1, h.2.2, Bool.false_eq_true, if_false, hm,
          Option.some.injEq] at hafter
        exact hafter.symm
    | enable =>
      refine ⟨by simp [step, XPluginEnable, Event.isMemcpy], ?_⟩
      intro q region after hq hm hafter
      simp only [step, Option.some.injEq] at hq
      subst hq
      simp only [XPluginEnable] at hafter
      rw [hm] at hafter
      simpa using hafter.symm
    | disable =>
      refine ⟨by simp [step, XPluginDisable, Event.isMemcpy], ?_⟩
      intro q region after hq hm hafter
      simp only [step, Option.some.injEq] at hq
      subst hq
      simp only [XPluginDisable] at hafter
      rw [hm] at hafter
      simpa using hafter.symm
    | stop =>
      refine ⟨?_, ?_⟩
      · cases hd : p.sharedMemory.detach.1 <;>
          simp [step, XPluginStop, hd, Event.isMemcpy]
      · intro q region after hq hm hafter
        simp only [step, Option.some.injEq] at hq
        subst hq
        simp [XPluginStop, QSharedMemory.detach, QSharedMemory.isAttached, hm] at hafter
    | tick c l k => exact absurd rfl (hnot c l k)
  · intro c l k q hop hq
    subst hop
    simp only [step] at hq
    rcases tick_cases p c l k with h | ⟨_, h⟩ | h | ⟨b, cp, hb, hc, h⟩ | ⟨_, _, h⟩ <;>
      rw [h] at hq <;> simp only [Outcome.next?, Option.some.injEq] at hq
    · subst hq; exact Or.inl rfl
    · subst hq; exact Or.inl rfl
    · subst hq; exact Or.inl rfl
    · subst hq
      rcases memcpy_ok _ _ _ _ hc with ⟨hm, _, hcp⟩ | ⟨r, hm, hfit, hcp⟩ | ⟨r, hm, hshort, _, hcp⟩
      · subst hcp
        exact Or.inl hm.symm
      · subst hcp
        exact Or.inr (Or.inl ⟨b, r, hb, hm, hfit, rfl⟩)
      · subst hcp
        exact Or.inr (Or.inr ⟨b, r, hb, hm, hshort, rfl⟩)
    · exact absurd hq (by simp)

/-- C5, the code at the failing input.  After a start that attached to the
four byte segment `[1, 2, 3, 4]` of another process and enable, a tick with
the five captured bytes `[10, 20, 30, 40, 50]` and the lock taken returns
(the lock is released, the copy was issued with the lock held) and leaves the
region `[10, 20, 30, 40]`: this is not the previous contents, and the first
five bytes of the region are not the buffer, whose last byte was stored
behind the region. -/
theorem tick_on_small_segment_leaves_part_of_the_buffer :
    run Plugin.init [.start none (some [1, 2, 3, 4]), .enable] =
        some (XPluginEnable smallAttachedPlugin).1 ∧
      (XPluginEnable smallAttachedPlugin).1.sharedMemory.memory = some [1, 2, 3, 4] ∧
      run Plugin.init
          [.start none (some [1, 2, 3, 4]), .enable,
           .tick (some [10, 20, 30, 40, 50]) true 4092] =
        some { (XPluginEnable smallAttachedPlugin).1 with sharedMemory :=
                { key := SHARED_MEMORY_KEY, memory := some [10, 20, 30, 40],
                  lockedByMe := false } } ∧
      (step (XPluginEnable smallAttachedPlugin).1
          (.tick (some [10, 20, 30, 40, 50]) true 4092)).2 =
        [.lock true, .data, .memcpy 5 true, .outOfBounds [50],
         .log .debug "Lock ok size" [5], .unlock] ∧
      ([10, 20, 30, 40] : List Nat) ≠ [1, 2, 3, 4] ∧
      ([10, 20, 30, 40] : List Nat).take 5 ≠ [10, 20, 30, 40, 50] :=
  ⟨rfl, rfl, rfl, rfl, by decide, by decide⟩

/-! ## Closing the channel -/

/-- C8: in every state reached from the initial statics (among them the one
left by a start that could neither create nor attach), `XPluginStop` returns
(no operation of it can fault, the run continues), leaves the object detached
and the lock not held, and calling it a second time leaves the statics
exactly as the first call left them. -/
theorem stop_is_idempotent (ops : List Op) (p : Plugin)
    (hreach : run Plugin.init ops = some p) :
    run Plugin.init (ops ++ [.stop]) = some (XPluginStop p).1 ∧
      run Plugin.init (ops ++ [.stop, .stop]) = some (XPluginStop p).1 ∧
      (XPluginStop p).1.sharedMemory.isAttached = false ∧
      (XPluginStop p).1.sharedMemory.memory = none ∧
      (XPluginStop p).1.sharedMemory.lockedByMe = false ∧
      (XPluginStop (XPluginStop p).1).1 = (XPluginStop p).1 := by
  have hinv := reachable_invariant ops p hreach
  have hdetached : (XPluginStop p).1.sharedMemory.memory = none :=
    (stop_detaches p).1
  have hagain : (XPluginStop (XPluginStop p).1).1 = (XPluginStop p).1 :=
    stop_on_stopped (XPluginStop p).1 hdetached (stop_detaches p).2
  refine ⟨?_, ?_, ?_, hdetached, ?_, hagain⟩
  · rw [run_append, hreach]
    rfl
  · rw [run_append, hreach]
    show run (XPluginStop (XPluginStop p).1).1 [] = _
    rw [hagain]
    rfl
  · simp [QSharedMemory.isAttached, hdetached]
  · have h := lifecycle_calls_keep_lock_flag p.sharedMemory "" 0 none none
    simp only [XPluginStop]
    rw [h.1, hinv.1]

/-- Witness of C8: stop after a start that could neither create nor
attach. -/
theorem stop_is_idempotent_witness :
    run Plugin.init [.start none none] = some unopenedPlugin ∧
      run Plugin.init ([.start none none] ++ [.stop]) = some (XPluginStop unopenedPlugin).1 ∧
      run Plugin.init ([.start none none] ++ [.stop, .stop]) =
        some (XPluginStop unopenedPlugin).1 ∧
      (XPluginStop unopenedPlugin).1.sharedMemory.isAttached = false ∧
      (XPluginStop unopenedPlugin).1.sharedMemory.memory = none ∧
      (XPluginStop unopenedPlugin).1.sharedMemory.lockedByMe = false ∧
      (XPluginStop (XPluginStop unopenedPlugin).1).1 = (XPluginStop unopenedPlugin).1 :=
  ⟨rfl, stop_is_idempotent [.start none none] unopenedPlugin rfl⟩

/-! ## The plugin information strings -/

/-- The three literals of `XPluginStart`, copied: every byte is below 128 and
only the last byte is zero; the copies take 17, 33 and 35 bytes. -/
theorem plugin_info_literals :
    (∀ b ∈ strcpy "Little XpConnect", b < 128) ∧
      (∀ b ∈ strcpy "ABarthel.LittleXpConnect.Connect", b < 128) ∧
      (∀ b ∈ strcpy "Connects Little Navmap to X-Plane.", b < 128) ∧
      (strcpy "Little XpConnect").getLast? = some 0 ∧
      (strcpy "ABarthel.LittleXpConnect.Connect").getLast? = some 0 ∧
      (strcpy "Connects Little Navmap to X-Plane.").getLast? = some 0 ∧
      0 ∉ (strcpy "Little XpConnect").dropLast ∧
      0 ∉ (strcpy "ABarthel.LittleXpConnect.Connect").dropLast ∧
      0 ∉ (strcpy "Connects Little Navmap to X-Plane.").dropLast ∧
      (strcpy "Little XpConnect").length = 17 ∧
      (strcpy "ABarthel.LittleXpConnect.Connect").length = 33 ∧
      (strcpy "Connects Little Navmap to X-Plane.").length = 35 := by
  decide

/-- C9: whatever the statics and the environment, the bytes `XPluginStart`
stores through `outName`, `outSig` and `outDesc` are the three literals, each
followed by one zero byte; every byte is ASCII (below 128), the zero byte is
the last and the only one; the copies take 17, 33 and 35 bytes, so each stays
inside a 256 byte buffer of the host and inside a 1024 byte buffer of the test
driver. -/
theorem plugin_info_copies_are_bounded (p : Plugin) (createOs : Option Nat)
    (attachOs : Option (List Nat)) :
    (XPluginStart p createOs attachOs).outName =
        "Little XpConnect".toList.map Char.toNat ++ [0] ∧
      (XPluginStart p createOs attachOs).outSig =
        "ABarthel.LittleXpConnect.Connect".toList.map Char.toNat ++ [0] ∧
      (XPluginStart p createOs attachOs).outDesc =
        "Connects Little Navmap to X-Plane.".toList.map Char.toNat ++ [0] ∧
      (∀ b ∈ (XPluginStart p createOs attachOs).outName, b < 128) ∧
      (∀ b ∈ (XPluginStart p createOs attachOs).outSig, b < 128) ∧
      (∀ b ∈ (XPluginStart p createOs attachOs).outDesc, b < 128) ∧
      (XPluginStart p createOs attachOs).outName.getLast? = some 0 ∧
      (XPluginStart p createOs attachOs).outSig.getLast? = some 0 ∧
      (XPluginStart p createOs attachOs).outDesc.getLast? = some 0 ∧
      0 ∉ (XPluginStart p createOs attachOs).outName.dropLast ∧
      0 ∉ (XPluginStart p createOs attachOs).outSig.dropLast ∧
      0 ∉ (XPluginStart p createOs attachOs).outDesc.dropLast ∧
      (XPluginStart p createOs attachOs).outName.length = 17 ∧
      (XPluginStart p createOs attachOs).outSig.length = 33 ∧
      (XPluginStart p createOs attachOs).outDesc.length = 35 ∧
      XPLM_OUT_BUFFER_SIZE = 256 ∧ TEST_OUT_BUFFER_SIZE = 1024 ∧
      strcpyFits XPLM_OUT_BUFFER_SIZE (XPluginStart p createOs attachOs).outName = true ∧
      strcpyFits XPLM_OUT_BUFFER_SIZE (XPluginStart p createOs attachOs).outSig = true ∧
      strcpyFits XPLM_OUT_BUFFER_SIZE (XPluginStart p createOs attachOs).outDesc = true ∧
      LittleXpConnectTest.startFits p createOs attachOs = true := by
  have hn : (XPluginStart p createOs attachOs).outName = strcpy "Little XpConnect" := rfl
  have hs : (XPluginStart p createOs attachOs).outSig =
    strcpy "ABarthel.LittleXpConnect.Connect" := rfl
  have hd : (XPluginStart p createOs attachOs).outDesc =
    strcpy "Connects Little Navmap to X-Plane." := rfl
  have h := plugin_info_literals
  simp only [LittleXpConnectTest.startFits, hn, hs, hd]
  refine ⟨rfl, rfl, rfl, h.1, h.2.1, h.2.2.1, h.2.2.2.1, h.2.2.2.2.1, h.2.2.2.2.2.1,
    h.2.2.2.2.2.2.1, h.2.2.2.2.2.2.2.1, h.2.2.2.2.2.2.2.2.1, h.2.2.2.2.2.2.2.2.2.1,
    h.2.2.2.2.2.2.2.2.2.2.1, h.2.2.2.2.2.2.2.2.2.2.2, rfl, rfl, ?_, ?_, ?_, ?_⟩ <;> decide

/-! ## Ticks on a channel that is not attached or too small -/

/-- C7, the code at the failing input: after a start in which neither `create`
nor `attach` worked, followed by enable, the object is not attached, and a
tick with a captured byte and the semaphore available calls `lock()`,
`data()` and `memcpy` on the null pointer that `data()` returned; the
callback does not return. -/
theorem tick_on_unopened_channel_copies_to_null :
    run Plugin.init [.start none none, .enable] = some (XPluginEnable unopenedPlugin).1 ∧
      (XPluginEnable unopenedPlugin).1.sharedMemory.isAttached = false ∧
      (XPluginEnable unopenedPlugin).1.flightLoopRegistered = true ∧
      (∀ slack, flightLoopCallback (XPluginEnable unopenedPlugin).1 (some [42]) true slack =
        .faulted (.nullDestination 1) [.lock true, .data, .memcpy 1 true]) ∧
      (∀ slack,
        run Plugin.init [.start none none, .enable, .tick (some [42]) true slack] = none) :=
  ⟨rfl, rfl, rfl, fun _ => rfl, fun _ => rfl⟩

/-- C10, the code at the failing input: a start whose `create` fails and whose
`attach` finds a four byte segment, followed by enable, then a tick with five
captured bytes (within the limit of 8196) and the semaphore available: the
`memcpy` is issued for five bytes into a region of four.  With writable
memory behind the region the fifth byte is stored out of bounds and the
callback returns; with none the process does not survive the copy. -/
theorem tick_on_small_segment_overruns :
    run Plugin.init [.start none (some [1, 2, 3, 4]), .enable] =
        some (XPluginEnable smallAttachedPlugin).1 ∧
      (XPluginEnable smallAttachedPlugin).1.sharedMemory.memory = some [1, 2, 3, 4] ∧
      ([10, 20, 30, 40, 50] : List Nat).length ≤ SHARED_MEMORY_SIZE ∧
      flightLoopCallback (XPluginEnable smallAttachedPlugin).1 (some [10, 20, 30, 40, 50]) true
          0 =
        .faulted (.overrun 5 4) [.lock true, .data, .memcpy 5 true] ∧
      memcpy (some [1, 2, 3, 4]) [10, 20, 30, 40, 50] 5 4092 =
        .ok { memory := some [10, 20, 30, 40], beyond := [50] } ∧
      (flightLoopCallback (XPluginEnable smallAttachedPlugin).1 (some [10, 20, 30, 40, 50]) true
          4092).events =
        [.lock true, .data, .memcpy 5 true, .outOfBounds [50],
         .log .debug "Lock ok size" [5], .unlock] :=
  ⟨rfl, rfl, by decide, rfl, rfl, rfl⟩

end LittleXpConnect
